import Mathlib

/-!
Verification of `sysdig-tools/sysdig-runtime-scanner/get-runtime-scan-workload-results.py`
against its natural-language specification.

The script is a single linear pipeline: paginate a list endpoint, filter out
scan results without vulnerabilities, fetch per-result detail documents,
flatten nested JSON into report rows, and write a CSV file.

This file shallowly embeds that pipeline.  JSON documents are embedded as Lean
structures whose fields mirror exactly the keys the script reads; a key the
script accesses with `dict.get(k)` or `dict.get(k, default)` (absence allowed)
becomes an `Option` field, while a key the script accesses with `dict[k]`
(absence raises `KeyError`) becomes a plain field.  Side channels of the
script (log warnings, process exit codes, HTTP request counts, file writes)
are modelled as explicit components of the result values.
-/

/-- The severity object of one vulnerability: the script reads
`severity["value"]` and `severity["sourceName"]` (source lines 218-220). -/
structure Severity where
  value : String
  sourceName : String
deriving Repr, DecidableEq

/-- The inner `value` object of a `cvssScore`: keys `version`, `score`,
`vector` read with `[]` (source lines 224-226). -/
structure CvssValue where
  version : String
  score : String
  vector : String
deriving Repr, DecidableEq

/-- A `cvssScore` object: `value` is read with `.get` and a default
(line 223), `sourceName` with `[]` (line 227). -/
structure CvssScore where
  value : Option CvssValue
  sourceName : String
deriving Repr, DecidableEq

/-- One vulnerability record of a package.  Keys the script reads with
`.get(k, default)` are `Option`s (name, severity, cvssScore, solutionDate,
fixedInVersion); `disclosureDate` and `exploitable` are read with `[]`
(lines 229, 231).  `exploitable` is carried as the string the CSV writer
renders for it. -/
structure Vulnerability where
  name : Option String
  severity : Option Severity
  cvssScore : Option CvssScore
  disclosureDate : String
  solutionDate : Option String
  exploitable : String
  fixedInVersion : Option String
deriving Repr, DecidableEq

/-- One package record of a detail document; every key the script reads from
it uses `.get` (lines 204-214), so all fields are `Option`s.  `inUse` is
carried as the string the CSV writer renders for it. -/
structure Package where
  name : Option String
  version : Option String
  type : Option String
  path : Option String
  suggestedFix : Option String
  inUse : Option String
  vulns : Option (List Vulnerability)
deriving Repr, DecidableEq

/-- The `result.metadata` object of a detail document: `pullString` is read
with `.get` and no default (line 190), `imageId` and `baseOs` with `[]`
(lines 198-199). -/
structure ImageMetadata where
  pullString : Option String
  imageId : String
  baseOs : String
deriving Repr, DecidableEq

/-- The `result` object of one detail-endpoint document (`ImageScanDetail`):
`metadata` read with `[]`, `packages` with `.get("packages", {})`
(line 201). -/
structure ImageScanDetail where
  metadata : ImageMetadata
  packages : Option (List Package)
deriving Repr, DecidableEq

/-- The `vulnTotalBySeverity` object of one list-endpoint result: the five
severity buckets summed by the filter (lines 277-281). -/
structure VulnTotalBySeverity where
  critical : Nat
  high : Nat
  low : Nat
  medium : Nat
  negligible : Nat
deriving Repr, DecidableEq

/-- The `scope` object of one list-endpoint result (lines 184-188). -/
structure Scope where
  clusterName : String
  namespaceName : String
  podContainerName : String
  workloadName : String
  workloadType : String
deriving Repr, DecidableEq

/-- One entry of the list endpoint's `data` array (a `ScanResult`). -/
structure ScanResult where
  resultId : String
  scope : Scope
  vulnTotalBySeverity : VulnTotalBySeverity
deriving Repr, DecidableEq

/-- The `page` object of a list-endpoint response: `next` is present exactly
when another page follows (lines 305-308). -/
structure PageMeta where
  next : Option String
deriving Repr, DecidableEq

/-- One parsed list-endpoint response body. -/
structure ListResponse where
  page : PageMeta
  data : List ScanResult
deriving Repr, DecidableEq

/-- Sum of the five severity buckets of one scan result, as accumulated into
`total_vulns` (source lines 276-281). -/
def totalVulns (r : ScanResult) : Nat :=
  r.vulnTotalBySeverity.critical + r.vulnTotalBySeverity.high +
    r.vulnTotalBySeverity.low + r.vulnTotalBySeverity.medium +
    r.vulnTotalBySeverity.negligible

/-- Embedding of `_get_scan_results_list_with_vulnerabilties` (source lines
270-288): walk `scan_results_list["data"]` in order, appending each result
whose severity-bucket sum is strictly positive. -/
def _get_scan_results_list_with_vulnerabilties (scanResultsList : ListResponse) :
    List ScanResult :=
  scanResultsList.data.foldl
    (fun acc result => if totalVulns result > 0 then acc ++ [result] else acc) []

/-- The header row built into `report_headers` (source lines 149-175):
26 fixed column names, in source order. -/
def report_headers : List String :=
  ["Vulnerability ID", "Severity", "Package name", "Package version",
   "Package type", "Package path", "Image", "OS Name", "CVSS version",
   "CVSS score", "CVSS vector", "Vuln link", "Vuln Publish date",
   "Vuln Fix date", "Fix version", "Public Exploit", "K8S cluster name",
   "K8S namespace name", "K8S workload type", "K8S workload name",
   "K8S container name", "Image ID", "K8S POD count",
   "Package suggested fix", "In use", "Risk accepted"]

/-- One `report_row` (source lines 234-260): the 26 cells appended for one
(scan result, package, vulnerability) triple, in source order.  A cell whose
key was absent carries the default of the corresponding `.get` call; the
`Image` cell carries `pullString` rendered as the CSV writer renders it
(a missing key yields the empty cell). -/
def report_row (result : ScanResult) (detail : ImageScanDetail)
    (package : Package) (vuln : Vulnerability) : List String :=
  [vuln.name.getD "",
   (vuln.severity.getD ⟨"", ""⟩).value,
   package.name.getD "",
   package.version.getD "",
   package.type.getD "",
   package.path.getD "",
   detail.metadata.pullString.getD "",
   detail.metadata.baseOs,
   ((vuln.cvssScore.getD ⟨some ⟨"", "", ""⟩, ""⟩).value.getD ⟨"", "", ""⟩).version,
   ((vuln.cvssScore.getD ⟨some ⟨"", "", ""⟩, ""⟩).value.getD ⟨"", "", ""⟩).score,
   ((vuln.cvssScore.getD ⟨some ⟨"", "", ""⟩, ""⟩).value.getD ⟨"", "", ""⟩).vector,
   "TODO",
   vuln.disclosureDate,
   vuln.solutionDate.getD "",
   vuln.fixedInVersion.getD "",
   vuln.exploitable,
   result.scope.clusterName,
   result.scope.namespaceName,
   result.scope.workloadName,
   result.scope.workloadType,
   result.scope.podContainerName,
   detail.metadata.imageId,
   "TODO",
   package.suggestedFix.getD "",
   package.inUse.getD "",
   "TODO"]

/-- The rows one scan result contributes to `report_data` (the body of the
outer `for result in scan_results_list_with_vulns` loop, source lines
180-266): if the detail document's `pullString` is the empty string the
result is skipped entirely (`continue`, line 196); otherwise every package
whose `vulns` key is present (line 204) contributes one row per
vulnerability. -/
def resultRows (details : String → ImageScanDetail) (result : ScanResult) :
    List (List String) :=
  let detail := details result.resultId
  if detail.metadata.pullString == some "" then []
  else
    (detail.packages.getD []).flatMap (fun package =>
      match package.vulns with
      | none => []
      | some vulns => vulns.map (report_row result detail package))

/-- Embedding of `_gather_report_data` (source lines 145-268).  NOTE: the
source builds `report = [report_headers]` (line 177) but RETURNS
`report_data` (line 268), which never receives the header row; the embedding
is faithful to that return value, so the header row is absent. -/
def _gather_report_data (scanResultsListWithVulns : List ScanResult)
    (details : String → ImageScanDetail) : List (List String) :=
  scanResultsListWithVulns.flatMap (resultRows details)

/-- The warnings logged by `_gather_report_data` (line 195): one warning,
carrying the result id, for each kept result whose detail `pullString` is the
empty string, in loop order. -/
def gatherReportWarnings (scanResultsListWithVulns : List ScanResult)
    (details : String → ImageScanDetail) : List String :=
  scanResultsListWithVulns.filterMap (fun result =>
    if (details result.resultId).metadata.pullString == some "" then
      some result.resultId
    else none)

/-- Embedding of `_get_images_with_vulns_scan_results` (source lines
314-327), projected to the detail-endpoint requests it issues: one request
per result id not already a key of the dictionary, in list order (the
fetched documents themselves are supplied to the flattener by the `details`
environment function). -/
def _get_images_with_vulns_scan_results (scanResultsListWithVulns : List ScanResult) :
    List String :=
  scanResultsListWithVulns.foldl
    (fun acc result =>
      if result.resultId ∈ acc then acc else acc ++ [result.resultId]) []

/-- One HTTP response as seen by `_get_data_from_http_request`: status code
and decoded body. -/
structure HttpResponse where
  status : Nat
  body : String
deriving Repr, DecidableEq

/-- Outcome of `_get_data_from_http_request`: either the body of a 200
response, or process termination.  `exit code` records the argument of the
`SystemExit` that escapes: the source's handler (lines 353-356) catches the
`UnexpectedHTTPResponse` raised on any other status and raises a bare
`SystemExit()` whose code is `None`, i.e. process exit status 0 (it is not
caught by `main`'s `except Exception` since `SystemExit` is not an
`Exception`). -/
inductive HttpOutcome where
  | ok (body : String)
  | exit (code : Int)
deriving Repr, DecidableEq

/-- Embedding of `_get_data_from_http_request` (source lines 329-358) over
the sequence of responses the server returns for successive attempts of the
one URL: 200 returns the body, 429 sleeps and retries, anything else raises
and ends the process.  The second component counts the requests issued;
`none` models the loop exhausting the given responses (it retries
forever). -/
def _get_data_from_http_request : List HttpResponse → Option (HttpOutcome × Nat)
  | [] => none
  | r :: rs =>
    if r.status = 200 then some (HttpOutcome.ok r.body, 1)
    else if r.status = 429 then
      (_get_data_from_http_request rs).map (fun p => (p.1, p.2 + 1))
    else some (HttpOutcome.exit 0, 1)

/-- The cursor reached after `k` pagination steps from `cursor`, following
`json_response["page"]["next"]` each time (source lines 305-306); `none` if
some intermediate response has no `next` cursor. -/
def cursorAt (server : String → ListResponse) : Nat → String → Option String
  | 0, cursor => some cursor
  | k + 1, cursor =>
    match (server cursor).page.next with
    | some c => cursorAt server k c
    | none => none

/-- The `while True` pagination loop of
`_get_runtime_workload_scan_results_list` (source lines 297-310), fuelled:
fetch the list endpoint at `cursor`, and if the response's page metadata has
a `next` cursor, loop with it, else stop.  Returns the response the loop
ends on together with the number of list requests issued; `none` models fuel
exhaustion (the real loop would keep fetching). -/
def runListLoop (server : String → ListResponse) :
    Nat → String → Option (ListResponse × Nat)
  | 0, _ => none
  | fuel + 1, cursor =>
    let resp := server cursor
    match resp.page.next with
    | some c => (runListLoop server fuel c).map (fun p => (p.1, p.2 + 1))
    | none => some (resp, 1)

/-- Embedding of `_get_runtime_workload_scan_results_list` (source lines
290-312): run the pagination loop from the initial cursor `""` (line 294)
and return `json_response`, the single response variable the loop last
overwrote. -/
def _get_runtime_workload_scan_results_list (server : String → ListResponse)
    (fuel : Nat) : Option ListResponse :=
  (runListLoop server fuel "").map (fun p => p.1)

/-- The environment of one run of `main`: whether the output path already
exists, the list endpoint as a function of the cursor, fuel bounding the
pagination loop, and the detail endpoint as a function of the result id. -/
structure Env where
  fileExists : Bool
  listServer : String → ListResponse
  fuel : Nat
  details : String → ImageScanDetail

/-- The observable outcome of one run of `main`: the process exit status
(`SystemExit(-1)` on a pre-existing file, else 0: `main` returns `None` and
`sys.exit(main())` exits 0), the number of list-endpoint requests, the
detail-endpoint requests issued, and the rows written to the output file
(`none`: no file was created or modified). -/
structure RunResult where
  exitCode : Int
  listRequests : Nat
  detailRequests : List String
  fileWritten : Option (List (List String))
deriving Repr, DecidableEq

/-- Embedding of `main` (source lines 80-143) on the success path of the
network layer: refuse a pre-existing output file before any network activity
(lines 90-92); paginate the list endpoint (line 106); if the last page's
`data` is empty, log and write nothing (lines 109-110); otherwise filter,
fetch details, flatten, and write `report_data` to the file (lines 112-130).
`none` models pagination fuel exhaustion. -/
def mainRun (env : Env) : Option RunResult :=
  if env.fileExists then
    some ⟨-1, 0, [], none⟩
  else
    match runListLoop env.listServer env.fuel "" with
    | none => none
    | some (resp, n) =>
      if resp.data.length = 0 then
        some ⟨0, n, [], none⟩
      else
        let kept := _get_scan_results_list_with_vulnerabilties resp
        some ⟨0, n, _get_images_with_vulns_scan_results kept,
          some (_gather_report_data kept env.details)⟩

/-- Spec-side count: the sum, over the packages of a detail document that
have at least one vulnerability entry, of that package's vulnerability
count (spec 4.5 / 8). -/
def vulnCountSum (detail : ImageScanDetail) : Nat :=
  (((detail.packages.getD []).filter
      (fun p => 0 < (p.vulns.getD []).length)).map
    (fun p => (p.vulns.getD []).length)).sum

/-- A vulnerability with every optional field present (concrete test input). -/
def vulnFull : Vulnerability :=
  { name := some "CVE-2024-0001"
    severity := some ⟨"high", "nvd"⟩
    cvssScore := some ⟨some ⟨"3.1", "7.5", "AV:N"⟩, "nvd"⟩
    disclosureDate := "2024-01-01"
    solutionDate := some "2024-02-01"
    exploitable := "False"
    fixedInVersion := some "7.1" }

/-- A package holding exactly one vulnerability (concrete test input). -/
def pkgCurl : Package :=
  { name := some "curl"
    version := some "7.0"
    type := some "os"
    path := some "/usr/bin/curl"
    suggestedFix := some "7.1"
    inUse := some "True"
    vulns := some [vulnFull] }

/-- A Kubernetes scope (concrete test input). -/
def scopeW : Scope := ⟨"cluster1", "ns1", "cont1", "wl1", "Deployment"⟩

/-- A scan result with one critical vulnerability in its severity buckets,
hence kept by the filter (concrete test input). -/
def resultR1 : ScanResult := ⟨"r1", scopeW, ⟨1, 0, 0, 0, 0⟩⟩

/-- A second kept scan result with a distinct id (concrete test input). -/
def resultR2 : ScanResult := ⟨"r2", scopeW, ⟨0, 2, 0, 0, 0⟩⟩

/-- A scan result with all five severity buckets zero, hence dropped by the
filter (concrete test input). -/
def resultZero : ScanResult := ⟨"z1", scopeW, ⟨0, 0, 0, 0, 0⟩⟩

/-- A detail document with a non-empty pull string and one package with one
vulnerability (concrete test input). -/
def detailOk : ImageScanDetail :=
  ⟨⟨some "docker.io/library/curl:7.0", "sha256:abc", "debian"⟩, some [pkgCurl]⟩

/-- A detail document whose `pullString` is the empty string — the upstream
anomaly the flattener skips — still holding one package with one
vulnerability (concrete test input). -/
def detailEmptyPull : ImageScanDetail :=
  ⟨⟨some "", "sha256:abc", "debian"⟩, some [pkgCurl]⟩

/-- A detail environment returning `detailOk` for every result id. -/
def detailsOk : String → ImageScanDetail := fun _ => detailOk

/-- A detail environment returning the empty-pull-string document for `r1`
and `detailOk` for every other result id. -/
def detailsMixed : String → ImageScanDetail :=
  fun resultId => if resultId = "r1" then detailEmptyPull else detailOk

/-- A single-page list response holding one kept result (concrete test
input). -/
def respOnePage : ListResponse := ⟨⟨none⟩, [resultR1]⟩

/-- A two-page list server: the empty cursor's response points to cursor
`"c1"`, whose response is final; the two pages hold different data
(concrete test input). -/
def serverTwoPages : String → ListResponse :=
  fun cursor =>
    if cursor = "" then ⟨⟨some "c1"⟩, [resultR1]⟩
    else ⟨⟨none⟩, [resultR2]⟩

/-- The final page returned by `serverTwoPages` (concrete test input). -/
def lastPage : ListResponse := ⟨⟨none⟩, [resultR2]⟩

/-- An environment whose output file already exists (concrete test input). -/
def envFileExists : Env := ⟨true, fun _ => ⟨⟨none⟩, []⟩, 3, detailsOk⟩

/-- An environment that finds an empty data list on its single list page
(concrete test input). -/
def envEmptyData : Env := ⟨false, fun _ => ⟨⟨none⟩, []⟩, 3, detailsOk⟩

/-- An environment whose single list page holds one result with zero
vulnerabilities everywhere: the run reaches the CSV write with an empty
`report_data` (concrete test input). -/
def envZeroVulns : Env := ⟨false, fun _ => ⟨⟨none⟩, [resultZero]⟩, 3, detailsOk⟩

/-- A vulnerability with every optional field absent (concrete test input). -/
def vulnBare : Vulnerability :=
  { name := some "CVE-2024-0002"
    severity := none
    cvssScore := none
    disclosureDate := "2024-03-01"
    solutionDate := none
    exploitable := "True"
    fixedInVersion := none }

/-- A package with every optional field absent (concrete test input). -/
def pkgBare : Package :=
  { name := none, version := none, type := none, path := none
    suggestedFix := none, inUse := none, vulns := some [vulnBare] }

/-- A 500 response (concrete test input). -/
def resp500 : HttpResponse := ⟨500, "Internal Server Error"⟩

/-- A 200 response (concrete test input). -/
def resp200 : HttpResponse := ⟨200, "ok"⟩

/-- The append-to-accumulator loop of the filter is `List.filter` of the
severity-sum predicate. -/
theorem getScanResultsList_foldl_eq_filter (l : List ScanResult)
    (acc : List ScanResult) :
    l.foldl (fun acc result =>
        if totalVulns result > 0 then acc ++ [result] else acc) acc
      = acc ++ l.filter (fun r => totalVulns r > 0) := by
  induction l generalizing acc with
  | nil => simp
  | cons x xs ih =>
    by_cases hx : totalVulns x > 0 <;>
      simp [List.foldl, List.filter, hx, ih]

/-- The filter, restated: it is exactly `List.filter` of the predicate
"severity-bucket sum strictly positive". -/
theorem getScanResultsList_eq_filter (resp : ListResponse) :
    _get_scan_results_list_with_vulnerabilties resp
      = resp.data.filter (fun r => totalVulns r > 0) := by
  simpa [_get_scan_results_list_with_vulnerabilties] using
    getScanResultsList_foldl_eq_filter resp.data []

/-- C5: the vulnerability filter keeps a scan result if and only if the sum
of its five severity-bucket counts (critical, high, low, medium, negligible)
is strictly greater than zero, and applies no other criterion: it is exactly
`List.filter` of that one predicate over the response's `data` list. -/
theorem c5_filter_keeps_iff_positive_severity_sum (resp : ListResponse) :
    _get_scan_results_list_with_vulnerabilties resp
        = resp.data.filter (fun r => 0 < totalVulns r) ∧
      ∀ r : ScanResult,
        r ∈ _get_scan_results_list_with_vulnerabilties resp ↔
          r ∈ resp.data ∧ 0 < totalVulns r := by
  refine ⟨getScanResultsList_eq_filter resp, fun r => ?_⟩
  rw [getScanResultsList_eq_filter resp]
  simp [List.mem_filter]

/-- C9: the vulnerability filter is idempotent — re-running it on a list
response whose `data` is its own output (under any page metadata) returns
that output unchanged. -/
theorem c9_filter_idempotent (resp : ListResponse) (page : PageMeta) :
    _get_scan_results_list_with_vulnerabilties
        ⟨page, _get_scan_results_list_with_vulnerabilties resp⟩
      = _get_scan_results_list_with_vulnerabilties resp := by
  rw [getScanResultsList_eq_filter resp,
    getScanResultsList_eq_filter ⟨page, resp.data.filter fun r => totalVulns r > 0⟩]
  simp [List.filter_filter]

/-- C8: if every listed optional field of a vulnerability and its package
(severity, CVSS score object, solution date, fixed-in version, package
name/version/type/path/suggested-fix/in-use) is absent, the flattener still
produces a full 26-cell row, with the empty string in each corresponding
column — absence of these keys can never reach a key-lookup failure, since
each is read through `.get` with a default. -/
theorem c8_missing_optional_fields_default_to_empty (result : ScanResult)
    (detail : ImageScanDetail) (package : Package) (vuln : Vulnerability)
    (hsev : vuln.severity = none) (hcvss : vuln.cvssScore = none)
    (hsol : vuln.solutionDate = none) (hfix : vuln.fixedInVersion = none)
    (hpn : package.name = none) (hpv : package.version = none)
    (hpt : package.type = none) (hpp : package.path = none)
    (hps : package.suggestedFix = none) (hpu : package.inUse = none) :
    report_row result detail package vuln =
      [vuln.name.getD "", "", "", "", "", "",
       detail.metadata.pullString.getD "", detail.metadata.baseOs,
       "", "", "", "TODO", vuln.disclosureDate, "", "", vuln.exploitable,
       result.scope.clusterName, result.scope.namespaceName,
       result.scope.workloadName, result.scope.workloadType,
       result.scope.podContainerName, detail.metadata.imageId, "TODO",
       "", "", "TODO"] := by
  simp [report_row, hsev, hcvss, hsol, hfix, hpn, hpv, hpt, hpp, hps, hpu]

/-- Witness for C8 at a concrete bare vulnerability and package. -/
theorem c8_witness :
    report_row resultR1 detailOk pkgBare vulnBare =
      ["CVE-2024-0002", "", "", "", "", "",
       "docker.io/library/curl:7.0", "debian",
       "", "", "", "TODO", "2024-03-01", "", "", "True",
       "cluster1", "ns1", "wl1", "Deployment", "cont1", "sha256:abc",
       "TODO", "", "", "TODO"] :=
  c8_missing_optional_fields_default_to_empty resultR1 detailOk pkgBare
    vulnBare rfl rfl rfl rfl rfl rfl rfl rfl rfl rfl

/-- Length of the per-package flattening: the inner double loop of the
flattener emits, package by package, exactly as many rows as the package has
vulnerability entries, which sums to the spec-side count over packages with
at least one entry. -/
theorem flatMap_rows_length (f : Package → Vulnerability → List String)
    (ps : List Package) :
    (ps.flatMap (fun package =>
        match package.vulns with
        | none => []
        | some vulns => vulns.map (f package))).length
      = ((ps.filter (fun p => 0 < (p.vulns.getD []).length)).map
          (fun p => (p.vulns.getD []).length)).sum := by
  induction ps with
  | nil => simp
  | cons p ps ih =>
    cases hv : p.vulns with
    | none => simpa [List.filter, hv] using ih
    | some vulns =>
      cases vulns with
      | nil => simpa [List.filter, hv] using ih
      | cons v vs =>
        simp [List.filter, hv, ih]
        omega

/-- C4 (amended): for every kept scan result whose detail document's image
pull string is not the empty string, the number of report rows emitted for
that result equals the sum, over its packages with at least one
vulnerability entry, of that package's vulnerability count; packages with no
vulnerabilities contribute no rows. -/
theorem c4_row_count_eq_vuln_count_sum (resp : ListResponse)
    (details : String → ImageScanDetail) (result : ScanResult)
    (_hkept : result ∈ _get_scan_results_list_with_vulnerabilties resp)
    (hpull : (details result.resultId).metadata.pullString ≠ some "") :
    (resultRows details result).length
      = vulnCountSum (details result.resultId) := by
  have hbeq : ((details result.resultId).metadata.pullString == some "") = false := by
    simpa using hpull
  simp only [resultRows, hbeq, Bool.false_eq_true, if_false]
  exact flatMap_rows_length _ _

/-- Witness for C4 at a concrete kept result with a non-empty pull string. -/
theorem c4_witness :
    (resultRows detailsOk resultR1).length
      = vulnCountSum (detailsOk resultR1.resultId) :=
  c4_row_count_eq_vuln_count_sum respOnePage detailsOk resultR1
    (by decide) (by decide)

/-- Counterexample to C4 as stated: `resultR1` is kept (its critical bucket
is 1), but its detail document under `detailsMixed` has an empty pull
string, so the flattener emits 0 rows for it while the sum over its packages
with at least one vulnerability entry is 1. -/
theorem c4_counterexample :
    resultR1 ∈ _get_scan_results_list_with_vulnerabilties respOnePage ∧
      vulnCountSum (detailsMixed resultR1.resultId) = 1 ∧
      (resultRows detailsMixed resultR1).length = 0 := by
  refine ⟨by decide, by decide, by decide⟩

/-- C7: a kept scan result whose detail document has an empty image pull
string contributes zero report rows and one logged warning carrying its
result id, while the gathered report is still the concatenation, in order,
of every kept result's rows — so every other kept result's rows all appear
in the output. -/
theorem c7_empty_pull_string_skips_result_with_warning
    (kept : List ScanResult) (details : String → ImageScanDetail)
    (result : ScanResult) (hmem : result ∈ kept)
    (hpull : (details result.resultId).metadata.pullString = some "") :
    resultRows details result = [] ∧
      result.resultId ∈ gatherReportWarnings kept details ∧
      _gather_report_data kept details = kept.flatMap (resultRows details) ∧
      ∀ other ∈ kept, ∀ row ∈ resultRows details other,
        row ∈ _gather_report_data kept details := by
  refine ⟨?_, ?_, rfl, ?_⟩
  · simp [resultRows, hpull]
  · exact List.mem_filterMap.mpr ⟨result, hmem, by simp [hpull]⟩
  · intro other hother row hrow
    exact List.mem_flatMap.mpr ⟨other, hother, hrow⟩

/-- Witness for C7: under `detailsMixed`, the kept list `[resultR1,
resultR2]` has `resultR1` skipped with a warning while `resultR2` still
produces its rows. -/
theorem c7_witness :
    resultRows detailsMixed resultR1 = [] ∧
      "r1" ∈ gatherReportWarnings [resultR1, resultR2] detailsMixed ∧
      _gather_report_data [resultR1, resultR2] detailsMixed
        = [resultR1, resultR2].flatMap (resultRows detailsMixed) ∧
      ∀ other ∈ [resultR1, resultR2], ∀ row ∈ resultRows detailsMixed other,
        row ∈ _gather_report_data [resultR1, resultR2] detailsMixed :=
  c7_empty_pull_string_skips_result_with_warning [resultR1, resultR2]
    detailsMixed resultR1 (by decide) (by decide)

/-- Characterization of the fuelled pagination loop: a returned response is
the server's response at the cursor reached after some number `k` of
`next`-cursor steps, it is the `k+1`-st (last) page fetched, and its page
metadata has no `next` cursor. -/
theorem runListLoop_spec (server : String → ListResponse) :
    ∀ (fuel : Nat) (cursor : String) (r : ListResponse) (n : Nat),
      runListLoop server fuel cursor = some (r, n) →
      ∃ k c, n = k + 1 ∧ cursorAt server k cursor = some c ∧
        r = server c ∧ r.page.next = none := by
  intro fuel
  induction fuel with
  | zero =>
    intro cursor r n h
    simp [runListLoop] at h
  | succ fuel ih =>
    intro cursor r n h
    simp only [runListLoop] at h
    split at h
    case h_1 c heq =>
      cases hrec : runListLoop server fuel c with
      | none =>
        rw [hrec] at h
        exact absurd h (by simp)
      | some p =>
        rw [hrec] at h
        simp only [Option.map_some', Option.some.injEq] at h
        obtain ⟨h1, h2⟩ := Prod.mk.injEq .. |>.mp h
        obtain ⟨k, c', hn, hcur, hr, hnone⟩ := ih c p.1 p.2 (by rw [hrec])
        refine ⟨k + 1, c', by omega, ?_, ?_, ?_⟩
        · simp [cursorAt, heq, hcur]
        · rw [← h1, hr]
        · rw [← h1]; exact hnone
    case h_2 heq =>
      injection h with h'
      obtain ⟨h1, h2⟩ := Prod.mk.injEq .. |>.mp h'
      refine ⟨0, cursor, h2.symm, rfl, h1.symm, ?_⟩
      rw [← h1]; exact heq

/-- Every cursor strictly before the one the pagination loop ends on was
produced by a response whose page metadata did contain a `next` cursor. -/
theorem cursorAt_intermediate (server : String → ListResponse) :
    ∀ (k : Nat) (cursor c : String), cursorAt server k cursor = some c →
      ∀ j, j < k → ∃ cj, cursorAt server j cursor = some cj ∧
        ((server cj).page.next).isSome := by
  intro k
  induction k with
  | zero =>
    intro cursor c _ j hj
    exact absurd hj (Nat.not_lt_zero j)
  | succ k ih =>
    intro cursor c h j hj
    simp only [cursorAt] at h
    split at h
    case h_1 c2 heq =>
      cases j with
      | zero => exact ⟨cursor, rfl, by simp [heq]⟩
      | succ j =>
        obtain ⟨cj, hcj, hs⟩ := ih c2 c h j (by omega)
        exact ⟨cj, by simp [cursorAt, heq, hcj], hs⟩
    case h_2 => simp at h

/-- C2: whenever the pagination loop returns a response, that response was
reached by re-invoking the HTTP retrieval with the `next` cursor taken from
each prior response's page metadata (starting from the empty cursor), the
loop stopped exactly at the first response whose page metadata has no `next`
cursor (every earlier response had one), and the returned value is that one
last page — `server c` itself, with no accumulation of earlier pages'
data. -/
theorem c2_pagination_keeps_only_last_page (server : String → ListResponse)
    (fuel : Nat) (r : ListResponse)
    (h : _get_runtime_workload_scan_results_list server fuel = some r) :
    r.page.next = none ∧
      ∃ k c, cursorAt server k "" = some c ∧ r = server c ∧
        runListLoop server fuel "" = some (r, k + 1) ∧
        ∀ j, j < k → ∃ cj, cursorAt server j "" = some cj ∧
          ((server cj).page.next).isSome := by
  obtain ⟨p, hp, hfst⟩ := Option.map_eq_some'.mp h
  obtain ⟨k, c, hn, hcur, hr, hnone⟩ := runListLoop_spec server fuel "" p.1 p.2 (by
    rw [hp])
  subst hfst
  refine ⟨hnone, k, c, hcur, hr, ?_, cursorAt_intermediate server k "" c hcur⟩
  rw [hp]
  cases p
  simp only at hn
  rw [hn]

/-- Witness for C2: the two-page server is followed from the empty cursor to
cursor `"c1"`, and the loop returns only the final page. -/
theorem c2_witness :
    lastPage.page.next = none ∧
      ∃ k c, cursorAt serverTwoPages k "" = some c ∧
        lastPage = serverTwoPages c ∧
        runListLoop serverTwoPages 5 "" = some (lastPage, k + 1) ∧
        ∀ j, j < k → ∃ cj, cursorAt serverTwoPages j "" = some cj ∧
          ((serverTwoPages cj).page.next).isSome :=
  c2_pagination_keeps_only_last_page serverTwoPages 5 lastPage (by decide)

/-- C6: when the target output file already exists, the run ends with the
non-zero exit of `SystemExit(-1)` having issued no list request and no
detail request, and without creating or modifying any file. -/
theorem c6_existing_output_file_aborts_before_network (env : Env)
    (h : env.fileExists = true) :
    ∃ res, mainRun env = some res ∧ res.exitCode ≠ 0 ∧
      res.listRequests = 0 ∧ res.detailRequests = [] ∧
      res.fileWritten = none := by
  refine ⟨⟨-1, 0, [], none⟩, ?_, by decide, rfl, rfl, rfl⟩
  simp [mainRun, h]

/-- Witness for C6 at a concrete environment with a pre-existing file. -/
theorem c6_witness :
    ∃ res, mainRun envFileExists = some res ∧ res.exitCode ≠ 0 ∧
      res.listRequests = 0 ∧ res.detailRequests = [] ∧
      res.fileWritten = none :=
  c6_existing_output_file_aborts_before_network envFileExists rfl

/-- C10: when the last fetched list page has an empty `data` list, the run
creates no output file at all, issues no detail request, and exits zero
(`main` logs "No scan results found." and returns normally). -/
theorem c10_empty_data_list_writes_nothing (env : Env) (resp : ListResponse)
    (n : Nat) (hfile : env.fileExists = false)
    (hloop : runListLoop env.listServer env.fuel "" = some (resp, n))
    (hdata : resp.data = []) :
    mainRun env = some ⟨0, n, [], none⟩ := by
  simp [mainRun, hfile, hloop, hdata]

/-- Witness for C10 at a concrete environment whose single list page has no
data. -/
theorem c10_witness : mainRun envEmptyData = some ⟨0, 1, [], none⟩ :=
  c10_empty_data_list_writes_nothing envEmptyData ⟨⟨none⟩, []⟩ 1 rfl
    (by decide) rfl

/-- C1 fails on the code: `_gather_report_data` appends the header row to
the local `report` list (source line 177) but returns `report_data` (line
268), which never receives it, and `main` writes exactly that return value
(lines 128-130).  At a run whose list page holds one result with every
severity bucket zero, the program therefore writes a file containing zero
rows — not the header-only CSV the claim requires. -/
theorem c1_written_file_has_no_header_row :
    mainRun envZeroVulns = some ⟨0, 1, [], some []⟩ ∧
      ([] : List (List String)) ≠ [report_headers] := by
  exact ⟨by decide, by simp⟩

/-- C3 fails on the code: on a response whose status is neither 200 nor 429
(here 500 on the first attempt), `_get_data_from_http_request` raises
`UnexpectedHTTPResponse`, its own handler catches it and raises a bare
`SystemExit()` — exit status 0, not non-zero, since `SystemExit` carries no
code and is not an `Exception` for `main`'s handler — after exactly one
request (the queued 200 response is never fetched). -/
theorem c3_unexpected_status_exits_with_code_zero :
    _get_data_from_http_request [resp500, resp200]
      = some (HttpOutcome.exit 0, 1) := by decide
